import Mathlib

/-!
Shallow embedding of the Snippetbox web application (Go) and verification of
its specification claims.

Conventions of the embedding:
  * Go `time.Time` values become integer timestamps (`Int`); MySQL's
    `UTC_TIMESTAMP()` becomes an explicit `now : Int` argument.
  * Go's `map[string]string` used by the validator becomes an association
    list `List (String × String)`; its only writer, `AddFieldError`, inserts
    a key at most once, so the list always has pairwise-distinct keys and
    is observationally a map.
  * Fallible Go functions returning `(T, error)` become `Except GoError T`
    or `T × Option GoError`.
  * External library calls (the MySQL driver, bcrypt, the e-mail regexp
    engine) are parameters of the embedded functions: the embedding is
    faithful to how the repository's own code consumes their results.
-/

/-- The sentinel errors of internal/models/errors.go, plus the shapes of
driver-level errors that the model layer inspects (`*mysql.MySQLError`
with a number and message) and arbitrary other Go errors. -/
inductive GoError where
  | errNoRecord
  | errInvalidCredentials
  | errDuplicateEmail
  | mysqlError (number : Nat) (message : String)
  | other (e : String)
deriving DecidableEq, Repr

/- ===================== internal/validator (src/unnamed/part_002, second
   version: the one with NonFieldErrors, referenced by the claims) ===== -/

/-- Validator struct: a list of non-field error messages and a
field-name-to-message map (modelled as an association list). -/
structure Validator where
  NonFieldErrors : List String
  FieldErrors : List (String × String)
deriving DecidableEq, Repr

/-- The zero value of the Go Validator struct (nil slice, nil map). -/
def Validator.empty : Validator := Validator.mk [] []

/-- Valid returns true if the FieldErrors map and the NonFieldErrors list
contain no entries: `len(v.FieldErrors) == 0 && len(v.NonFieldErrors) == 0`. -/
def Validator.Valid (v : Validator) : Bool :=
  v.FieldErrors.length == 0 && v.NonFieldErrors.length == 0

/-- AddFieldError adds a key/message pair to the FieldErrors map, so long as
an entry does not already exist for that key.  (The nil-map initialization
in the Go source is a no-op in the list model.) -/
def Validator.AddFieldError (v : Validator) (key message : String) : Validator :=
  if v.FieldErrors.any (fun p => p.1 == key) then v
  else Validator.mk v.NonFieldErrors (v.FieldErrors ++ [(key, message)])

/-- AddNonFieldError appends a message to the NonFieldErrors list,
unconditionally. -/
def Validator.AddNonFieldError (v : Validator) (message : String) : Validator :=
  Validator.mk (v.NonFieldErrors ++ [message]) v.FieldErrors

/-- CheckField adds an error message to the FieldErrors map only if the
validation check is not ok. -/
def Validator.CheckField (v : Validator) (ok : Bool) (key message : String) : Validator :=
  if !ok then v.AddFieldError key message else v

/-- Observation helper: the message recorded for a field, if any
(`v.FieldErrors[key]` in Go). -/
def Validator.getFieldError (v : Validator) (key : String) : Option String :=
  (v.FieldErrors.find? (fun p => p.1 == key)).map (fun p => p.2)

/-- Go's `strings.TrimSpace` (external library), modelled on the
character list: drop leading and trailing whitespace. -/
def trimSpace (s : String) : String :=
  String.mk (((s.data.dropWhile Char.isWhitespace).reverse.dropWhile Char.isWhitespace).reverse)

/-- NotBlank returns true if a value is a non-empty string after trimming
whitespace: `strings.TrimSpace(value) != ""`. -/
def NotBlank (value : String) : Bool :=
  trimSpace value != ""

/-- The rune count of a string: `utf8.RuneCountInString` counts Unicode
scalar values, which is exactly the length of the character list of a
Lean string. -/
def runeCountInString (value : String) : Nat :=
  value.data.length

/-- MaxChars returns true if the rune count of the input string is not
greater than the limit n. -/
def MaxChars (value : String) (n : Int) : Bool :=
  decide ((runeCountInString value : Int) ≤ n)

/-- MinChars returns true if the rune count of the input string is at
least n. -/
def MinChars (value : String) (n : Int) : Bool :=
  decide (n ≤ (runeCountInString value : Int))

/-- PermittedValue returns true if a value is in a list of permitted
values (the Go variadic parameter becomes a list; Go `==` becomes `==`). -/
def PermittedValue (value : Int) (permittedValues : List Int) : Bool :=
  permittedValues.any (fun p => value == p)

/- ===================== internal/models/snippets.go ===================== -/

/-- A snippet row: ID, title, content, creation timestamp, expiry
timestamp (time.Time modelled as Int). -/
structure Snippet where
  id : Int
  title : String
  content : String
  created : Int
  expires : Int
deriving DecidableEq, Repr

/-- Outcome of `DB.Exec` followed by `result.LastInsertId()` for the
snippet INSERT statement: Exec succeeds and LastInsertId yields an id,
Exec itself fails, or Exec succeeds but LastInsertId fails. -/
inductive ExecOutcome where
  | success (lastInsertId : Int)
  | execError (e : String)
  | lastInsertIdError (e : String)
deriving DecidableEq, Repr

/-- SnippetModel.Insert, translated branch for branch from the source.
Note the source's Exec-error branch is literally `return 0, nil`. -/
def SnippetModel.Insert (res : ExecOutcome) : Int × Option GoError :=
  match res with
  | ExecOutcome.execError _ => (0, none)
  | ExecOutcome.lastInsertIdError e => (0, some (GoError.other e))
  | ExecOutcome.success id => (id, none)

/-- The row returned by the snippet SELECT
`WHERE expires > UTC_TIMESTAMP() AND id = ?` over a table state:
the first row whose expiry is strictly after `now` and whose id matches. -/
def snippetSelectRow (db : List Snippet) (now : Int) (id : Int) : Option Snippet :=
  db.find? (fun s => decide (now < s.expires) && s.id == id)

/-- SnippetModel.Get: run the SELECT; `sql.ErrNoRows` (no matching row)
is translated to ErrNoRecord, a matching row is returned as is. -/
def SnippetModel.Get (db : List Snippet) (now : Int) (id : Int) : Except GoError Snippet :=
  match snippetSelectRow db now id with
  | none => Except.error GoError.errNoRecord
  | some s => Except.ok s

/- ===================== internal/models users (src/unnamed/part_003) === -/

/-- A user row as stored in the users table. -/
structure User where
  id : Int
  name : String
  email : String
  hashedPassword : String
deriving DecidableEq, Repr

/-- Result of `bcrypt.GenerateFromPassword` (external library, modelled
abstractly): a hash, or an error. -/
inductive BcryptHashOutcome where
  | hashed (hash : String)
  | hashError (e : String)
deriving DecidableEq, Repr

/-- Result of `bcrypt.CompareHashAndPassword` (external library, modelled
abstractly): match, `ErrMismatchedHashAndPassword`, or any other error. -/
inductive BcryptCompareResult where
  | ok
  | mismatch
  | failure (e : String)
deriving DecidableEq, Repr

/-- Outcome of `DB.Exec` for the user INSERT statement: success, a
`*mysql.MySQLError` with its number and message, or any other error. -/
inductive UserExecOutcome where
  | success
  | mysqlErr (number : Nat) (message : String)
  | otherError (e : String)
deriving DecidableEq, Repr

/-- List prefix test used to model Go's `strings.Contains`. -/
def listIsPrefix : List Char → List Char → Bool
  | [], _ => true
  | _ :: _, [] => false
  | a :: as, b :: bs => a == b && listIsPrefix as bs

/-- Substring occurrence over character lists: `sub` occurs at some
position of the second list. -/
def listContainsSub (sub : List Char) : List Char → Bool
  | [] => listIsPrefix sub []
  | c :: rest => listIsPrefix sub (c :: rest) || listContainsSub sub rest

/-- Go's `strings.Contains(s, sub)` (external library), modelled over the
character lists. -/
def stringContains (s sub : String) : Bool :=
  listContainsSub sub.data s.data

/-- UserModel.Insert, translated from the source.  The bcrypt generator
and the database execute primitive are parameters; the first component
of the result is the hashed_password value handed to `DB.Exec`
(`none` when Exec was never reached), the second is the returned error:
a 1062 MySQL error whose message mentions the users_uc_email key becomes
ErrDuplicateEmail, every other error is returned as is. -/
def UserModel.Insert (password : String) (bcryptGenerate : String → BcryptHashOutcome)
    (exec : String → UserExecOutcome) : Option String × Option GoError :=
  match bcryptGenerate password with
  | BcryptHashOutcome.hashError e => (none, some (GoError.other e))
  | BcryptHashOutcome.hashed hashedPassword =>
    (some hashedPassword,
      match exec hashedPassword with
      | UserExecOutcome.success => none
      | UserExecOutcome.mysqlErr n msg =>
          if n == 1062 && stringContains msg "users_uc_email" then
            some GoError.errDuplicateEmail
          else
            some (GoError.mysqlError n msg)
      | UserExecOutcome.otherError e => some (GoError.other e))

/-- Result of the `SELECT id, hashed_password FROM users WHERE email = ?`
query as consumed by Authenticate: a row, `sql.ErrNoRows`, or any other
store failure. -/
inductive AuthQueryResult where
  | row (id : Int) (hashedPassword : String)
  | noRows
  | failure (e : String)
deriving DecidableEq, Repr

/-- The row produced by the users-by-email SELECT over a table state. -/
def userSelectByEmail (db : List User) (email : String) : AuthQueryResult :=
  match db.find? (fun u => u.email == email) with
  | some u => AuthQueryResult.row u.id u.hashedPassword
  | none => AuthQueryResult.noRows

/-- UserModel.Authenticate, translated from the source: no row yields
ErrInvalidCredentials; other query errors are returned as is; on a row,
a bcrypt mismatch yields ErrInvalidCredentials, other bcrypt errors are
returned as is, and a match yields the user's id. -/
def UserModel.Authenticate (query : AuthQueryResult)
    (compare : String → String → BcryptCompareResult) (password : String) :
    Except GoError Int :=
  match query with
  | AuthQueryResult.noRows => Except.error GoError.errInvalidCredentials
  | AuthQueryResult.failure e => Except.error (GoError.other e)
  | AuthQueryResult.row id hashedPassword =>
    match compare hashedPassword password with
    | BcryptCompareResult.mismatch => Except.error GoError.errInvalidCredentials
    | BcryptCompareResult.failure e => Except.error (GoError.other e)
    | BcryptCompareResult.ok => Except.ok id

/- ===================== cmd/web handlers and middleware ================ -/

/-- The parts of templateData that the embedded handlers populate: the
Form field (its embedded Validator) and the Snippet field. -/
structure TemplateData where
  form : Option Validator
  snippet : Option Snippet
deriving DecidableEq, Repr

/-- templateData carrying a form's validator. -/
def dataWithForm (v : Validator) : TemplateData :=
  TemplateData.mk (some v) none

/-- templateData carrying a snippet. -/
def dataWithSnippet (s : Snippet) : TemplateData :=
  TemplateData.mk none (some s)

/-- What a handler writes to the ResponseWriter: a rendered template with
an HTTP status and template data, a redirect, or a bare HTTP error
(`app.notFound` is 404, `app.clientError 400` is 400, `app.serverError`
is 500). -/
inductive HResponse where
  | render (status : Nat) (page : String) (data : TemplateData)
  | redirect (status : Nat) (url : String)
  | httpError (status : Nat)
deriving DecidableEq, Repr

/-- The decoded snippetCreateForm fields. -/
structure SnippetCreateForm where
  title : String
  content : String
  expires : Int
deriving DecidableEq, Repr

/-- The decoded userSignupForm fields. -/
structure UserSignupForm where
  name : String
  email : String
  password : String
deriving DecidableEq, Repr

/-- The decoded userLoginForm fields. -/
structure UserLoginForm where
  email : String
  password : String
deriving DecidableEq, Repr

/-- The CheckField chain of snippetCreatePost, in source order, starting
from the zero Validator embedded in the freshly declared form. -/
def snippetCreateValidate (form : SnippetCreateForm) : Validator :=
  ((((Validator.empty).CheckField (NotBlank form.title) "title"
      "This field cannot be blank").CheckField
      (MaxChars form.title 100) "title"
      "This field cannot be more than 100 characters long").CheckField
      (NotBlank form.content) "content"
      "This field cannot be blank").CheckField
      (PermittedValue form.expires [1, 7, 365]) "expires"
      "This field must equal 1, 7, or 365"

/-- The CheckField chain of userSignupPost, in source order.  The
`Matches(form.Email, validator.EmailRX)` call is modelled by the
abstract predicate `emailRx` (the regexp engine is external library
code). -/
def userSignupValidate (emailRx : String → Bool) (form : UserSignupForm) : Validator :=
  (((((Validator.empty).CheckField (NotBlank form.name) "name"
      "This field cannot be blank").CheckField
      (NotBlank form.email) "email"
      "This field cannot be blank").CheckField
      (emailRx form.email) "email"
      "This field must be a valid email address").CheckField
      (NotBlank form.password) "password"
      "This field cannot be blank").CheckField
      (MinChars form.password 8) "password"
      "This field must be at least 8 characters long"

/-- The CheckField chain of userLoginPost, in source order. -/
def userLoginValidate (emailRx : String → Bool) (form : UserLoginForm) : Validator :=
  (((Validator.empty).CheckField (NotBlank form.email) "email"
      "This field cannot be blank").CheckField
      (emailRx form.email) "email"
      "This field must be a valid email address").CheckField
      (NotBlank form.password) "password"
      "This field cannot be blank"

/-- snippetView, translated from the source: a missing or non-positive id
parameter is 404; then Get is consulted: ErrNoRecord maps to 404, any
other error to 500, and a row renders view.tmpl with status 200.
`get` abstracts `app.snippets.Get`. -/
def snippetView (idParam : Option Int) (get : Int → Except GoError Snippet) : HResponse :=
  match idParam with
  | none => HResponse.httpError 404
  | some id =>
    if id < 1 then HResponse.httpError 404
    else
      match get id with
      | Except.error GoError.errNoRecord => HResponse.httpError 404
      | Except.error _ => HResponse.httpError 500
      | Except.ok s => HResponse.render 200 "view.tmpl" (dataWithSnippet s)

/-- snippetCreatePost, translated from the source.  `decode` is the
result of decodePostForm (none models a decode error, answered with 400);
`exec` is the database outcome consumed by SnippetModel.Insert.  The
second component records whether `app.snippets.Insert` was invoked. -/
def snippetCreatePost (decode : Option SnippetCreateForm) (exec : ExecOutcome) :
    HResponse × Bool :=
  match decode with
  | none => (HResponse.httpError 400, false)
  | some form =>
    let v := snippetCreateValidate form
    if v.Valid = false then
      (HResponse.render 422 "create.tmpl" (dataWithForm v), false)
    else
      match SnippetModel.Insert exec with
      | (id, none) => (HResponse.redirect 303 ("/snippet/view/" ++ toString id), true)
      | (_, some _) => (HResponse.httpError 500, true)

/-- userSignupPost, translated from the source.  `insertErr` is the error
component returned by `app.users.Insert`; the second component records
whether Insert was invoked. -/
def userSignupPost (emailRx : String → Bool) (decode : Option UserSignupForm)
    (insertErr : Option GoError) : HResponse × Bool :=
  match decode with
  | none => (HResponse.httpError 400, false)
  | some form =>
    let v := userSignupValidate emailRx form
    if v.Valid = false then
      (HResponse.render 422 "signup.tmpl" (dataWithForm v), false)
    else
      match insertErr with
      | some GoError.errDuplicateEmail =>
          (HResponse.render 422 "signup.tmpl"
            (dataWithForm (v.AddFieldError "email" "Email address is already in use")), true)
      | some _ => (HResponse.httpError 500, true)
      | none => (HResponse.redirect 303 "/user/login", true)

/-- userLoginPost, translated from the source.  The source's invalid-form
branch renders login.tmpl with 422 but does NOT return, so control falls
through to `app.users.Authenticate` in every decoded case; the embedding
therefore yields the LIST of responses written to the ResponseWriter, in
order, and a flag recording whether Authenticate was invoked.  `authRes`
abstracts the Authenticate result and `renewOk` the RenewToken result. -/
def userLoginPost (decode : Option UserLoginForm) (emailRx : String → Bool)
    (authRes : Except GoError Int) (renewOk : Bool) : List HResponse × Bool :=
  match decode with
  | none => ([HResponse.httpError 400], false)
  | some form =>
    let v := userLoginValidate emailRx form
    let pre : List HResponse :=
      if v.Valid = false then [HResponse.render 422 "login.tmpl" (dataWithForm v)] else []
    match authRes with
    | Except.error GoError.errInvalidCredentials =>
        (pre ++ [HResponse.render 200 "login.tmpl"
          (dataWithForm (v.AddNonFieldError "Incorrect email or password"))], true)
    | Except.error _ => (pre ++ [HResponse.httpError 500], true)
    | Except.ok _ =>
        if renewOk then (pre ++ [HResponse.redirect 303 "/snippet/create"], true)
        else (pre ++ [HResponse.httpError 500], true)

/-- What `r.Context().Value(isAuthenticatedContextKey)` can yield: nothing,
a boolean, or a value of some other type (represented by Int and String
carriers). -/
inductive ContextValue where
  | absent
  | boolVal (b : Bool)
  | intVal (n : Int)
  | stringVal (s : String)
deriving DecidableEq, Repr

/-- isAuthenticated, translated from the source: the type assertion
`.(bool)` fails (returns false) unless the context value is a boolean;
on failure the function returns false, otherwise the boolean itself. -/
def isAuthenticated (v : ContextValue) : Bool :=
  match v with
  | ContextValue.boolVal b => b
  | _ => false

/-- requireAuthentication middleware, translated from the source: an
unauthenticated request is redirected (303) to /user/login and the chain
stops; otherwise the next handler runs (the Cache-Control: no-store
header set on that path is not modelled).  The second component records
whether the protected handler was invoked. -/
def requireAuthentication (ctxVal : ContextValue) (next : HResponse) :
    HResponse × Bool :=
  if isAuthenticated ctxVal = false then
    (HResponse.redirect 303 "/user/login", false)
  else
    (next, true)

/- ===================== helper lemmas ================================== -/

/-- A validator is Valid exactly when both error collections are empty. -/
theorem Validator.valid_iff (v : Validator) :
    v.Valid = true ↔ v.FieldErrors = [] ∧ v.NonFieldErrors = [] := by
  unfold Validator.Valid
  simp [List.length_eq_zero]

/-- find? over an append whose left part has no match. -/
theorem find?_append_none {α : Type} (p : α → Bool) (l1 l2 : List α)
    (h : l1.find? p = none) : (l1 ++ l2).find? p = l2.find? p := by
  induction l1 with
  | nil => rfl
  | cons a t ih =>
    cases hpa : p a with
    | true => rw [List.find?_cons_of_pos _ hpa] at h; exact absurd h (by simp)
    | false =>
      rw [List.find?_cons_of_neg _ (by simp [hpa])] at h
      rw [List.cons_append, List.find?_cons_of_neg _ (by simp [hpa])]
      exact ih h

/-- find? over an append of a matching singleton whose left part has no
match. -/
theorem find?_key_append_single (l : List (String × String)) (k m : String)
    (h : l.find? (fun p => p.1 == k) = none) :
    (l ++ [(k, m)]).find? (fun p => p.1 == k) = some (k, m) := by
  rw [find?_append_none _ _ _ h]
  simp [List.find?]

/-- No recorded message for a field is the same as the key-presence scan
of AddFieldError coming up empty. -/
theorem Validator.getFieldError_eq_none_iff (v : Validator) (k : String) :
    v.getFieldError k = none ↔ v.FieldErrors.any (fun p => p.1 == k) = false := by
  unfold Validator.getFieldError
  rw [Option.map_eq_none', List.find?_eq_none, ← Bool.not_eq_true, List.any_eq_true]
  constructor
  · intro h hx
    obtain ⟨x, hmem, hpx⟩ := hx
    exact absurd hpx (h x hmem)
  · intro h x hmem hpx
    exact h ⟨x, hmem, hpx⟩

/-- AddFieldError observed at its own key: a fresh key records the new
message, a key already present keeps its old message. -/
theorem Validator.getFieldError_AddFieldError_self (v : Validator) (k m : String) :
    (v.AddFieldError k m).getFieldError k = some ((v.getFieldError k).getD m) := by
  cases hany : v.FieldErrors.any (fun p => p.1 == k) with
  | true =>
    have hres : v.AddFieldError k m = v := by
      unfold Validator.AddFieldError
      rw [hany]
      simp
    rw [hres]
    cases hget : v.getFieldError k with
    | some m0 => rfl
    | none =>
      rw [Validator.getFieldError_eq_none_iff] at hget
      rw [hget] at hany
      exact absurd hany (by simp)
  | false =>
    have hres : v.AddFieldError k m =
        Validator.mk v.NonFieldErrors (v.FieldErrors ++ [(k, m)]) := by
      unfold Validator.AddFieldError
      rw [hany]
      simp
    have hget : v.getFieldError k = none := (Validator.getFieldError_eq_none_iff v k).2 hany
    have hfind : v.FieldErrors.find? (fun p => p.1 == k) = none := by
      have hg := hget
      unfold Validator.getFieldError at hg
      exact Option.map_eq_none'.mp hg
    rw [hres, hget]
    show Option.map (fun p => p.2) ((v.FieldErrors ++ [(k, m)]).find? (fun p => p.1 == k)) =
      some (Option.getD none m)
    rw [find?_key_append_single _ _ _ hfind]
    rfl

/-- CheckField observed at its own key: the message is recorded exactly
when the check failed and no message was recorded before. -/
theorem Validator.getFieldError_CheckField_self (v : Validator) (ok : Bool) (k m : String) :
    (v.CheckField ok k m).getFieldError k =
      if ok = false ∧ v.getFieldError k = none then some m else v.getFieldError k := by
  cases ok with
  | true => simp [Validator.CheckField]
  | false =>
    simp only [Validator.CheckField, Bool.not_false, if_pos rfl, if_true]
    rw [Validator.getFieldError_AddFieldError_self]
    cases hget : v.getFieldError k <;> simp [hget]

/-- Every field-error entry after a CheckField either was there before or
carries the checked key. -/
theorem Validator.mem_fieldErrors_CheckField (v : Validator) (ok : Bool) (k m : String)
    (p : String × String) (hp : p ∈ (v.CheckField ok k m).FieldErrors) :
    p ∈ v.FieldErrors ∨ p.1 = k := by
  cases ok with
  | true => exact Or.inl hp
  | false =>
    simp only [Validator.CheckField, Bool.not_false, if_pos rfl, if_true] at hp
    unfold Validator.AddFieldError at hp
    cases hany : v.FieldErrors.any (fun q => q.1 == k) with
    | true => rw [hany] at hp; exact Or.inl hp
    | false =>
      rw [hany] at hp
      simp only [Bool.false_eq_true, if_false, List.mem_append] at hp
      cases hp with
      | inl h => exact Or.inl h
      | inr h =>
        have hpe : p = (k, m) := by simpa using h
        right
        rw [hpe]

/-- CheckField never removes field errors: the old list is a prefix. -/
theorem Validator.fieldErrors_CheckField_false_fresh (v : Validator) (k m : String)
    (h : v.getFieldError k = none) :
    (v.CheckField false k m).FieldErrors = v.FieldErrors ++ [(k, m)] := by
  have hany := (Validator.getFieldError_eq_none_iff v k).1 h
  simp only [Validator.CheckField, Bool.not_false, if_pos rfl, if_true]
  unfold Validator.AddFieldError
  rw [hany]
  simp

/-- CheckField leaves the NonFieldErrors list untouched. -/
theorem Validator.nonFieldErrors_CheckField (v : Validator) (ok : Bool) (k m : String) :
    (v.CheckField ok k m).NonFieldErrors = v.NonFieldErrors := by
  cases ok with
  | true => rfl
  | false =>
    simp only [Validator.CheckField, Bool.not_false, if_pos rfl, if_true]
    unfold Validator.AddFieldError
    cases hany : v.FieldErrors.any (fun q => q.1 == k) <;> simp

/-- A validator with a recorded field error is not Valid. -/
theorem Validator.valid_false_of_getFieldError_some (v : Validator) (k m : String)
    (h : v.getFieldError k = some m) : v.Valid = false := by
  cases hval : v.Valid with
  | false => rfl
  | true =>
    obtain ⟨hf, _⟩ := (Validator.valid_iff v).1 hval
    unfold Validator.getFieldError at h
    rw [hf] at h
    exact absurd h (by simp [List.find?])

/- ===================== claim theorems ================================= -/

/-- Claim C4: for every validator state, Valid() returns true if and only
if both the field-error map and the non-field-error list are empty. -/
theorem C4_valid_iff_no_errors (v : Validator) :
    v.Valid = true ↔ v.FieldErrors = [] ∧ v.NonFieldErrors = [] :=
  Validator.valid_iff v

/-- Witness for C4 at a concrete validator. -/
theorem C4_valid_iff_no_errors_witness :
    Validator.empty.Valid = true ↔
      Validator.empty.FieldErrors = [] ∧ Validator.empty.NonFieldErrors = [] :=
  C4_valid_iff_no_errors Validator.empty

/-- Claim C5: CheckField(ok, field, message) records message under field
exactly when ok is false and no message is already recorded for field;
after two failing checks on the same field only the first message is
retained, and an existing message is never overwritten. -/
theorem C5_checkField_first_error_wins (v : Validator) (ok : Bool) (k m m1 m2 : String) :
    ((v.CheckField ok k m).getFieldError k =
      if ok = false ∧ v.getFieldError k = none then some m else v.getFieldError k) ∧
    (v.getFieldError k = none →
      ((v.CheckField false k m1).CheckField false k m2).getFieldError k = some m1) ∧
    (∀ m0, v.getFieldError k = some m0 →
      (v.CheckField ok k m).getFieldError k = some m0) := by
  refine ⟨Validator.getFieldError_CheckField_self v ok k m, ?_, ?_⟩
  · intro hnone
    have h1 : (v.CheckField false k m1).getFieldError k = some m1 := by
      rw [Validator.getFieldError_CheckField_self]
      simp [hnone]
    rw [Validator.getFieldError_CheckField_self]
    simp [h1]
  · intro m0 hm0
    rw [Validator.getFieldError_CheckField_self]
    simp [hm0]

/-- Witness for C5 at a concrete validator and messages. -/
theorem C5_checkField_first_error_wins_witness :
    ((Validator.empty.CheckField false "x" "m").getFieldError "x" =
      if (false : Bool) = false ∧ Validator.empty.getFieldError "x" = none then some "m"
      else Validator.empty.getFieldError "x") ∧
    ((Validator.empty.CheckField false "x" "first").CheckField false "x" "second").getFieldError "x" =
      some "first" :=
  ⟨(C5_checkField_first_error_wins Validator.empty false "x" "m" "first" "second").1,
   (C5_checkField_first_error_wins Validator.empty false "x" "m" "first" "second").2.1 (by decide)⟩

/-- Claim C9: MinChars and MaxChars measure string length in Unicode
scalar values (runes, the length of the character list), not bytes: a
password of 7 runes fails MinChars 8, one of 8 runes passes it,
whatever its byte encoding length. -/
theorem C9_length_checks_count_runes (s : String) :
    (runeCountInString s = 7 → MinChars s 8 = false) ∧
    (runeCountInString s = 8 → MinChars s 8 = true) ∧
    (MinChars s 8 = true ↔ 8 ≤ runeCountInString s) ∧
    (MaxChars s 100 = true ↔ runeCountInString s ≤ 100) := by
  refine ⟨?_, ?_, ?_, ?_⟩ <;> simp [MinChars, MaxChars] <;> omega

/-- Witness for C9 at two concrete multi-byte passwords: both are at
least 8 bytes long, yet the 7-rune one fails the minimum-length-8 check
and the 8-rune one passes it. -/
theorem C9_length_checks_count_runes_witness :
    "ααααααα".utf8ByteSize = 14 ∧ MinChars "ααααααα" 8 = false ∧
    "αααααααα".utf8ByteSize = 16 ∧ MinChars "αααααααα" 8 = true :=
  ⟨by decide, (C9_length_checks_count_runes "ααααααα").1 (by decide),
   by decide, (C9_length_checks_count_runes "αααααααα").2.1 (by decide)⟩

/-- Claim C10: whenever the request context does not carry the
authenticated marker as the boolean true (absent, non-boolean, or
boolean false), isAuthenticated returns false and the
requireAuthentication gate redirects to the login page without invoking
the protected handler. -/
theorem C10_fail_closed_authentication (c : ContextValue) (next : HResponse)
    (h : c ≠ ContextValue.boolVal true) :
    isAuthenticated c = false ∧
    requireAuthentication c next = (HResponse.redirect 303 "/user/login", false) := by
  have hfalse : isAuthenticated c = false := by
    cases c with
    | boolVal b =>
      cases b with
      | true => exact absurd rfl h
      | false => rfl
    | absent => rfl
    | intVal n => rfl
    | stringVal s => rfl
  refine ⟨hfalse, ?_⟩
  unfold requireAuthentication
  rw [hfalse]
  simp

/-- Witness for C10 at an absent context value. -/
theorem C10_fail_closed_authentication_witness :
    isAuthenticated ContextValue.absent = false ∧
    requireAuthentication ContextValue.absent (HResponse.httpError 404) =
      (HResponse.redirect 303 "/user/login", false) :=
  C10_fail_closed_authentication ContextValue.absent (HResponse.httpError 404) (by decide)

/-- Claim C3: Authenticate yields the identical distinguished
invalid-credentials error both when no user row matches the email and
when a row matches but the password does not verify; any other
store-level failure is returned as a different, non-credentials error. -/
theorem C3_authenticate_enumeration_resistant (db : List User) (email password : String)
    (compare : String → String → BcryptCompareResult) (id : Int) (hashed e : String) :
    ((∀ u ∈ db, u.email ≠ email) →
      UserModel.Authenticate (userSelectByEmail db email) compare password =
        Except.error GoError.errInvalidCredentials) ∧
    (compare hashed password = BcryptCompareResult.mismatch →
      UserModel.Authenticate (AuthQueryResult.row id hashed) compare password =
        Except.error GoError.errInvalidCredentials) ∧
    (UserModel.Authenticate (AuthQueryResult.failure e) compare password =
      Except.error (GoError.other e)) ∧
    GoError.other e ≠ GoError.errInvalidCredentials := by
  refine ⟨?_, ?_, rfl, by simp⟩
  · intro hnone
    have hfind : db.find? (fun u => u.email == email) = none := by
      rw [List.find?_eq_none]
      intro u hu
      simp [hnone u hu]
    unfold UserModel.Authenticate userSelectByEmail
    rw [hfind]
  · intro hcmp
    simp [UserModel.Authenticate, hcmp]

/-- Witness for C3: an empty user table, a mismatching comparison, and a
failing store, at concrete inputs. -/
theorem C3_authenticate_enumeration_resistant_witness :
    UserModel.Authenticate (userSelectByEmail [] "a@b.com")
      (fun _ _ => BcryptCompareResult.mismatch) "pw" =
      Except.error GoError.errInvalidCredentials ∧
    UserModel.Authenticate (AuthQueryResult.row 1 "stored-hash")
      (fun _ _ => BcryptCompareResult.mismatch) "pw" =
      Except.error GoError.errInvalidCredentials ∧
    UserModel.Authenticate (AuthQueryResult.failure "store down")
      (fun _ _ => BcryptCompareResult.mismatch) "pw" =
      Except.error (GoError.other "store down") :=
  ⟨(C3_authenticate_enumeration_resistant [] "a@b.com" "pw"
      (fun _ _ => BcryptCompareResult.mismatch) 1 "stored-hash" "store down").1
      (by intro u hu; simp at hu),
   (C3_authenticate_enumeration_resistant [] "a@b.com" "pw"
      (fun _ _ => BcryptCompareResult.mismatch) 1 "stored-hash" "store down").2.1 rfl,
   (C3_authenticate_enumeration_resistant [] "a@b.com" "pw"
      (fun _ _ => BcryptCompareResult.mismatch) 1 "stored-hash" "store down").2.2.1⟩

/-- Claim C6: Get returns a row only if its expiry is strictly later than
the current time; when the row is absent or expired it returns the
distinguished ErrNoRecord, which snippetView maps to a 404 response
rather than a server error. -/
theorem C6_get_only_unexpired (db : List Snippet) (now id : Int) :
    (∀ s, SnippetModel.Get db now id = Except.ok s →
      now < s.expires ∧ s.id = id ∧ s ∈ db) ∧
    ((∀ s ∈ db, s.id = id → s.expires ≤ now) →
      SnippetModel.Get db now id = Except.error GoError.errNoRecord) ∧
    (SnippetModel.Get db now id = Except.error GoError.errNoRecord →
      snippetView (some id) (fun j => SnippetModel.Get db now j) = HResponse.httpError 404) := by
  refine ⟨?_, ?_, ?_⟩
  · intro s hs
    unfold SnippetModel.Get snippetSelectRow at hs
    cases hfind : db.find? (fun t => decide (now < t.expires) && t.id == id) with
    | none => rw [hfind] at hs; exact absurd hs (by simp)
    | some t =>
      rw [hfind] at hs
      have hst : t = s := by simpa using hs
      have hpred := List.find?_some hfind
      have hmem := List.mem_of_find?_eq_some hfind
      rw [hst] at hpred hmem
      simp only [Bool.and_eq_true, decide_eq_true_eq, beq_iff_eq] at hpred
      exact ⟨hpred.1, hpred.2, hmem⟩
  · intro hall
    unfold SnippetModel.Get snippetSelectRow
    have hfind : db.find? (fun t => decide (now < t.expires) && t.id == id) = none := by
      rw [List.find?_eq_none]
      intro t ht
      simp only [Bool.and_eq_true, decide_eq_true_eq, beq_iff_eq, not_and]
      intro hlt heq
      exact absurd (hall t ht heq) (by omega)
    rw [hfind]
  · intro hget
    unfold snippetView
    by_cases hid : id < 1
    · simp [hid]
    · simp only [hid, if_false]
      rw [hget]

/-- Witness for C6: a table holding one row whose expiry lies in the
past relative to the current time. -/
theorem C6_get_only_unexpired_witness :
    SnippetModel.Get [Snippet.mk 1 "title" "content" 0 5] 10 1 =
      Except.error GoError.errNoRecord ∧
    snippetView (some 1) (fun j => SnippetModel.Get [Snippet.mk 1 "title" "content" 0 5] 10 j) =
      HResponse.httpError 404 := by
  have h := C6_get_only_unexpired [Snippet.mk 1 "title" "content" 0 5] 10 1
  have hget := h.2.1 (by intro s hs heq; simp at hs; rw [hs]; decide)
  exact ⟨hget, h.2.2 hget⟩

/-- Claim C1 (code bug): on an execute failure, SnippetModel.Insert in the
source returns the pair (0, nil) - a success outcome with a zero
identifier - so snippetCreatePost treats the failed insert as a success
and redirects to /snippet/view/0 instead of answering 500. -/
theorem C1_insert_swallows_exec_error :
    SnippetModel.Insert (ExecOutcome.execError "store unreachable") = (0, none) ∧
    (snippetCreatePost (some (SnippetCreateForm.mk "a title" "some content" 7))
        (ExecOutcome.execError "store unreachable")).1 =
      HResponse.redirect 303 "/snippet/view/0" ∧
    (snippetCreatePost (some (SnippetCreateForm.mk "a title" "some content" 7))
        (ExecOutcome.execError "store unreachable")).2 = true := by
  refine ⟨rfl, ?_, ?_⟩ <;> decide

/-- Claim C2 (code bug): the source's userLoginPost renders the 422
validation failure for a blank login form but does not return, so it
still invokes Authenticate and writes a second response: on a blank
form the validator is invalid, yet the handler reports Authenticate as
invoked and two responses are written, the first being the 422 render. -/
theorem C2_login_continues_past_invalid_form :
    (userLoginValidate (fun _ => false) (UserLoginForm.mk "" "")).Valid = false ∧
    (userLoginPost (some (UserLoginForm.mk "" "")) (fun _ => false)
        (Except.error GoError.errInvalidCredentials) true).2 = true ∧
    (userLoginPost (some (UserLoginForm.mk "" "")) (fun _ => false)
        (Except.error GoError.errInvalidCredentials) true).1.length = 2 ∧
    (userLoginPost (some (UserLoginForm.mk "" "")) (fun _ => false)
        (Except.error GoError.errInvalidCredentials) true).1.head? =
      some (HResponse.render 422 "login.tmpl"
        (dataWithForm (userLoginValidate (fun _ => false) (UserLoginForm.mk "" "")))) := by
  refine ⟨?_, ?_, ?_, ?_⟩ <;> decide

/-- Claim C7: a snippet-creation submission whose expires value is not
permitted yields a 422 render of create.tmpl carrying a field error on
expires, and SnippetModel.Insert is never invoked. -/
theorem C7_create_rejects_bad_expires (form : SnippetCreateForm) (exec : ExecOutcome)
    (h : PermittedValue form.expires [1, 7, 365] = false) :
    (snippetCreatePost (some form) exec).1 =
      HResponse.render 422 "create.tmpl" (dataWithForm (snippetCreateValidate form)) ∧
    (snippetCreateValidate form).getFieldError "expires" =
      some "This field must equal 1, 7, or 365" ∧
    (snippetCreatePost (some form) exec).2 = false := by
  have hfresh : (((Validator.empty.CheckField (NotBlank form.title) "title"
      "This field cannot be blank").CheckField (MaxChars form.title 100) "title"
      "This field cannot be more than 100 characters long").CheckField
      (NotBlank form.content) "content" "This field cannot be blank").getFieldError
      "expires" = none := by
    rw [Validator.getFieldError_eq_none_iff, ← Bool.not_eq_true, List.any_eq_true]
    intro hex
    obtain ⟨p, hp, hpk⟩ := hex
    simp only [beq_iff_eq] at hpk
    rcases Validator.mem_fieldErrors_CheckField _ _ _ _ p hp with h2 | hk
    · rcases Validator.mem_fieldErrors_CheckField _ _ _ _ p h2 with h1 | hk
      · rcases Validator.mem_fieldErrors_CheckField _ _ _ _ p h1 with h0 | hk
        · simp [Validator.empty] at h0
        · rw [hk] at hpk; exact absurd hpk (by decide)
      · rw [hk] at hpk; exact absurd hpk (by decide)
    · rw [hk] at hpk; exact absurd hpk (by decide)
  have hget : (snippetCreateValidate form).getFieldError "expires" =
      some "This field must equal 1, 7, or 365" := by
    unfold snippetCreateValidate
    rw [h, Validator.getFieldError_CheckField_self]
    simp [hfresh]
  have hvalid : (snippetCreateValidate form).Valid = false :=
    Validator.valid_false_of_getFieldError_some _ _ _ hget
  refine ⟨?_, hget, ?_⟩
  · unfold snippetCreatePost
    simp [hvalid]
  · unfold snippetCreatePost
    simp [hvalid]

/-- Witness for C7: the spec's own example expires=3. -/
theorem C7_create_rejects_bad_expires_witness :
    (snippetCreatePost (some (SnippetCreateForm.mk "t" "c" 3)) (ExecOutcome.success 1)).1 =
      HResponse.render 422 "create.tmpl"
        (dataWithForm (snippetCreateValidate (SnippetCreateForm.mk "t" "c" 3))) ∧
    (snippetCreateValidate (SnippetCreateForm.mk "t" "c" 3)).getFieldError "expires" =
      some "This field must equal 1, 7, or 365" ∧
    (snippetCreatePost (some (SnippetCreateForm.mk "t" "c" 3)) (ExecOutcome.success 1)).2 =
      false :=
  C7_create_rejects_bad_expires (SnippetCreateForm.mk "t" "c" 3) (ExecOutcome.success 1)
    (by decide)

/-- Claim C8: user Insert persists the bcrypt hash of the password (the
value handed to the store is the hash), translates a MySQL 1062 error on
the users_uc_email key into the distinguished duplicate-email error,
returns every other store error unchanged, and the signup handler
attaches the duplicate-email outcome as a field error on the email
field. -/
theorem C8_duplicate_email_translation (password hashed msg e : String) (n : Nat)
    (bcryptGenerate : String → BcryptHashOutcome) (exec : String → UserExecOutcome)
    (emailRx : String → Bool) (form : UserSignupForm) :
    (bcryptGenerate password = BcryptHashOutcome.hashed hashed →
      (UserModel.Insert password bcryptGenerate exec).1 = some hashed) ∧
    (bcryptGenerate password = BcryptHashOutcome.hashed hashed →
      exec hashed = UserExecOutcome.mysqlErr 1062 msg →
      stringContains msg "users_uc_email" = true →
      (UserModel.Insert password bcryptGenerate exec).2 = some GoError.errDuplicateEmail) ∧
    (bcryptGenerate password = BcryptHashOutcome.hashed hashed →
      exec hashed = UserExecOutcome.mysqlErr n msg →
      (n == 1062 && stringContains msg "users_uc_email") = false →
      (UserModel.Insert password bcryptGenerate exec).2 = some (GoError.mysqlError n msg)) ∧
    (bcryptGenerate password = BcryptHashOutcome.hashed hashed →
      exec hashed = UserExecOutcome.otherError e →
      (UserModel.Insert password bcryptGenerate exec).2 = some (GoError.other e)) ∧
    ((userSignupValidate emailRx form).Valid = true →
      (userSignupPost emailRx (some form) (some GoError.errDuplicateEmail)).1 =
        HResponse.render 422 "signup.tmpl" (dataWithForm
          ((userSignupValidate emailRx form).AddFieldError "email"
            "Email address is already in use")) ∧
      ((userSignupValidate emailRx form).AddFieldError "email"
        "Email address is already in use").getFieldError "email" =
        some "Email address is already in use" ∧
      (userSignupPost emailRx (some form) (some GoError.errDuplicateEmail)).2 = true) := by
  refine ⟨?_, ?_, ?_, ?_, ?_⟩
  · intro hgen
    simp [UserModel.Insert, hgen]
  · intro hgen hexec hsub
    simp [UserModel.Insert, hgen, hexec, hsub]
  · intro hgen hexec hcond
    simp only [UserModel.Insert, hgen, hexec]
    rw [if_neg (by simp [hcond])]
  · intro hgen hexec
    simp [UserModel.Insert, hgen, hexec]
  · intro hval
    have hf := ((Validator.valid_iff _).1 hval).1
    have hnone : (userSignupValidate emailRx form).getFieldError "email" = none := by
      unfold Validator.getFieldError
      rw [hf]
      rfl
    have hadd := Validator.getFieldError_AddFieldError_self
      (userSignupValidate emailRx form) "email" "Email address is already in use"
    rw [hnone] at hadd
    refine ⟨?_, by simpa using hadd, ?_⟩
    · unfold userSignupPost
      simp [hval]
    · unfold userSignupPost
      simp [hval]

/-- Witness for C8 at concrete signup data, a concrete hash outcome, and
a concrete 1062 duplicate-key store error. -/
theorem C8_duplicate_email_translation_witness :
    (UserModel.Insert "password123" (fun _ => BcryptHashOutcome.hashed "HASH")
      (fun _ => UserExecOutcome.mysqlErr 1062 "Duplicate entry for key users_uc_email")).1 =
      some "HASH" ∧
    (UserModel.Insert "password123" (fun _ => BcryptHashOutcome.hashed "HASH")
      (fun _ => UserExecOutcome.mysqlErr 1062 "Duplicate entry for key users_uc_email")).2 =
      some GoError.errDuplicateEmail ∧
    (userSignupPost (fun _ => true)
      (some (UserSignupForm.mk "Bob" "bob@example.com" "password123"))
      (some GoError.errDuplicateEmail)).1 =
      HResponse.render 422 "signup.tmpl" (dataWithForm
        ((userSignupValidate (fun _ => true)
          (UserSignupForm.mk "Bob" "bob@example.com" "password123")).AddFieldError
          "email" "Email address is already in use")) := by
  have h := C8_duplicate_email_translation "password123" "HASH"
    "Duplicate entry for key users_uc_email" "x" 1062
    (fun _ => BcryptHashOutcome.hashed "HASH")
    (fun _ => UserExecOutcome.mysqlErr 1062 "Duplicate entry for key users_uc_email")
    (fun _ => true) (UserSignupForm.mk "Bob" "bob@example.com" "password123")
  exact ⟨h.1 rfl, h.2.1 rfl rfl (by decide), (h.2.2.2.2 (by decide)).1⟩

